import Mathlib

/-!
Verification of the dmdb_exporter metric translation engine (src/main.go)
against its natural-language specification.

The Go source is shallowly embedded: Go maps become association lists
(head insertion, first-match lookup, so a later insertion shadows an
earlier one, matching Go map assignment), the database driver becomes a
function from a query string to an abstract query outcome, and 64-bit
float parsing (strconv.ParseFloat) is kept abstract as a parameter
`pf : String -> Option V` since the claims only depend on which strings
parse and on the parsed value being propagated unchanged.
String lowering and trimming model the ASCII behaviour of the Go
standard library functions strings.ToLower and strings.TrimSpace.
-/

/-- ASCII model of Go strings.ToLower, written over the character list
so that it evaluates by kernel reduction. -/
def goToLower (s : String) : String := ⟨s.data.map Char.toLower⟩

/-- ASCII model of Go strings.TrimSpace: drop leading and trailing
whitespace characters. -/
def goTrimSpace (s : String) : String :=
  ⟨((s.data.dropWhile Char.isWhitespace).reverse.dropWhile Char.isWhitespace).reverse⟩

/-- Native driver values delivered by database/sql into an empty interface:
the modelled subset is integers, strings, booleans and SQL NULL (a nil
interface value). -/
inductive GoValue where
  | VNull
  | VInt (i : Int)
  | VStr (s : String)
  | VBool (b : Bool)
deriving DecidableEq, Repr

/-- Model of Go fmt.Sprintf with verb %v on the modelled native values.
A nil interface value prints as the string <nil>. -/
def goSprintf : GoValue → String
  | .VNull => "<nil>"
  | .VInt i => toString i
  | .VStr s => s
  | .VBool b => if b then "true" else "false"

/-- Go map indexing `m[k]` on a map[string]string: a missing key yields
the zero value, the empty string. -/
def mapGet (m : List (String × String)) (k : String) : String :=
  (m.lookup k).getD ""

/-- Row normalisation loop of GeneratePrometheusMetrics (main.go:358-362):
`m[strings.ToLower(colName)] = fmt.Sprintf("%v", *val)` for each column.
Head insertion models Go map assignment (last write wins under
first-match lookup). -/
def buildRow (cols : List String) (vals : List GoValue) : List (String × String) :=
  (cols.zip vals).foldl (fun m cv => (goToLower cv.1, goSprintf cv.2) :: m) []

/-- Prometheus value types used by the exporter. -/
inductive PromType where
  | gauge
  | counter
deriving DecidableEq, Repr

/-- The literal map strToPromType of GetMetricType (main.go:241-244). -/
def strToPromType : List (String × PromType) :=
  [("gauge", PromType.gauge), ("counter", PromType.counter)]

/-- GetMetricType (main.go:240-255). The Go function panics on an
unrecognised kind token; the panic is modelled as the error branch of
an Except value carrying the panic message. -/
def GetMetricType (metricType : String) (metricsType : List (String × String)) :
    Except String PromType :=
  match metricsType.lookup (goToLower metricType) with
  | none => Except.ok PromType.gauge
  | some strType =>
    match strToPromType.lookup (goToLower strType) with
    | none => Except.error ("Error while getting prometheus type " ++ goToLower strType)
    | some t => Except.ok t

/-- prometheus.BuildFQName from the client library: joins the non-empty
name parts with underscores; an empty base name yields the empty string. -/
def buildFQName (ns sub nm : String) : String :=
  if nm = "" then ""
  else if ns ≠ "" ∧ sub ≠ "" then ns ++ "_" ++ sub ++ "_" ++ nm
  else if ns ≠ "" then ns ++ "_" ++ nm
  else if sub ≠ "" then sub ++ "_" ++ nm
  else nm

/-- The fixed metric namespace constant (main.go:47; named `namespace`
in the source, renamed here because namespace is a Lean keyword). -/
def dmdbNamespace : String := "dmdb"

/-- cleanName (main.go:374-382): replace spaces with underscores, strip
parentheses, forward slashes and asterisks, then lower-case. Each
strings.Replace call of the source has a single-character pattern, so
it is a map (space to underscore) or a filter (character removal) over
the character list. -/
def cleanName (s : String) : String :=
  goToLower
    ⟨((((s.data.map fun c => if c = ' ' then '_' else c).filter
        (fun c => c ≠ '(')).filter (fun c => c ≠ ')')).filter
        (fun c => c ≠ '/')).filter (fun c => c ≠ '*')⟩

/-- One emitted observability sample: fully-qualified name, help text,
label names, label values, value kind and numeric value (the abstract
parse-result type V). -/
structure Sample (V : Type) where
  name : String
  help : String
  labelNames : List String
  labelValues : List String
  kind : PromType
  value : V
deriving DecidableEq, Repr

/-- The value-column loop of genericParser (main.go:277-304): for each
(metric, metricHelp) entry of metricsDesc, trim and parse the row's
textual value; on parse failure skip the column; otherwise emit one
sample, named either from the column (fieldToAppend empty, full label
set) or from the sanitised row field (fieldToAppend set, no labels).
The panic of GetMetricType aborts the row, keeping the samples already
emitted; it is modelled as the Option String component. -/
def emitMetrics {V : Type} (pf : String → Option V) (context fieldToAppend : String)
    (metricsType : List (String × String)) (labels labelsValues : List String)
    (row : List (String × String)) :
    List (String × String) → List (Sample V) × Option String
  | [] => ([], none)
  | (metric, metricHelp) :: rest =>
    match pf (goTrimSpace (mapGet row metric)) with
    | none => emitMetrics pf context fieldToAppend metricsType labels labelsValues row rest
    | some value =>
      match GetMetricType metric metricsType with
      | Except.error e => ([], some e)
      | Except.ok t =>
        let s : Sample V :=
          if fieldToAppend = "" then
            ⟨buildFQName dmdbNamespace context metric, metricHelp, labels, labelsValues, t, value⟩
          else
            ⟨buildFQName dmdbNamespace context (cleanName (mapGet row fieldToAppend)),
              metricHelp, [], [], t, value⟩
        let r := emitMetrics pf context fieldToAppend metricsType labels labelsValues row rest
        (s :: r.1, r.2)

/-- genericParser (main.go:270-306) as a state-passing row handler: the
state is the list of samples sent on the channel so far together with
metricsCount; the handler resolves the label values from the row and
runs the value-column loop. -/
def genericParserStep {V : Type} (pf : String → Option V) (context fieldToAppend : String)
    (metricsType : List (String × String)) (labels : List String)
    (metricsDesc : List (String × String))
    (st : List (Sample V) × Nat) (row : List (String × String)) :
    (List (Sample V) × Nat) × Option String :=
  let labelsValues := labels.map (fun l => mapGet row l)
  let r := emitMetrics pf context fieldToAppend metricsType labels labelsValues row metricsDesc
  ((st.1 ++ r.1, st.2 + r.1.length), r.2)

/-- A sql.Rows result: column names, the per-row Scan outcomes that the
driver delivers through rows.Next/rows.Scan, and the iteration error
that rows.Err would report when iteration terminated early (the source
never calls rows.Err). -/
structure Rows where
  cols : List String
  rows : List (Except String (List GoValue))
  iterErr : Option String

/-- Outcome of db.QueryContext under a deadline: whether ctx.Err() is
DeadlineExceeded at the check point (main.go:332), and the query's own
result. -/
structure QueryOutcome where
  deadlineExceeded : Bool
  result : Except String Rows

/-- The distinct error values GeneratePrometheusMetrics and
ScrapeGenericValues can return. Go errors are interface values: the
fresh errors.New allocations of the source are distinct from every
driver-returned error, which the constructors reflect. rowErr carries
an error escaping from the row handler (for genericParser this is the
GetMetricType panic). -/
inductive ScrapeErr where
  | timedOut
  | dbErr (msg : String)
  | scanErr (msg : String)
  | rowErr (msg : String)
  | noMetrics
deriving DecidableEq, Repr

/-- The message text of each error, as built by the source. -/
def ScrapeErr.message : ScrapeErr → String
  | .timedOut => "DM query timed out"
  | .dbErr m => m
  | .scanErr m => m
  | .rowErr m => m
  | .noMetrics => "No metrics found while parsing"

/-- The rows.Next loop of GeneratePrometheusMetrics (main.go:342-367):
scan each row, normalise it, hand it to the row handler; a scan or
handler failure stops iteration and propagates. -/
def scanLoop {σ : Type} (parse : σ → List (String × String) → σ × Option String)
    (cols : List String) :
    σ → List (Except String (List GoValue)) → σ × Option ScrapeErr
  | s, [] => (s, none)
  | s, Except.error e :: _ => (s, some (ScrapeErr.scanErr e))
  | s, Except.ok vals :: rest =>
    let r := parse s (buildRow cols vals)
    match r.2 with
    | some e => (r.1, some (ScrapeErr.rowErr e))
    | none => scanLoop parse cols r.1 rest

/-- GeneratePrometheusMetrics (main.go:320-371): after QueryContext,
first check the deadline (returning the fresh "DM query timed out"
error), then propagate a query error, then run the row loop. The
iteration error rows.Err is never inspected. -/
def GeneratePrometheusMetrics {σ : Type} (qo : QueryOutcome)
    (parse : σ → List (String × String) → σ × Option String) (init : σ) :
    σ × Option ScrapeErr :=
  if qo.deadlineExceeded then (init, some ScrapeErr.timedOut)
  else
    match qo.result with
    | Except.error e => (init, some (ScrapeErr.dbErr e))
    | Except.ok rws => scanLoop parse rws.cols init rws.rows

/-- ScrapeGenericValues (main.go:267-316): run the query with the
generic row handler, propagate its error, then apply the zero-result
policy on metricsCount. The first component is the list of samples
sent on the channel. -/
def ScrapeGenericValues {V : Type} (pf : String → Option V) (db : String → QueryOutcome)
    (context : String) (labels : List String)
    (metricsDesc metricsType : List (String × String))
    (fieldToAppend : String) (ignoreZeroResult : Bool) (request : String) :
    List (Sample V) × Option ScrapeErr :=
  let r := GeneratePrometheusMetrics (db request)
    (genericParserStep pf context fieldToAppend metricsType labels metricsDesc) ([], 0)
  match r.2 with
  | some e => (r.1.1, some e)
  | none =>
    if !ignoreZeroResult && r.1.2 == 0 then (r.1.1, some ScrapeErr.noMetrics)
    else (r.1.1, none)

/-- The Metric definition record (main.go:52-60). -/
structure Metric where
  Context : String
  Labels : List String
  MetricsDesc : List (String × String)
  MetricsType : List (String × String)
  FieldToAppend : String
  Request : String
  IgnoreZeroResult : Bool

/-- ScrapeMetric (main.go:258-264). -/
def ScrapeMetric {V : Type} (pf : String → Option V) (db : String → QueryOutcome)
    (m : Metric) : List (Sample V) × Option ScrapeErr :=
  ScrapeGenericValues pf db m.Context m.Labels m.MetricsDesc m.MetricsType
    m.FieldToAppend m.IgnoreZeroResult m.Request

/-- The per-definition body of the scrape fan-out (main.go:221-235):
an empty Request or an empty MetricsDesc is only logged (the two
if-statements have no other effect, the message text abridged to its
fixed part) and scraping proceeds regardless. -/
def scrapeOneMetric {V : Type} (pf : String → Option V) (db : String → QueryOutcome)
    (m : Metric) : List String × (List (Sample V) × Option ScrapeErr) :=
  let logs :=
    (if m.Request = ""
      then ["Error scraping: did you forget to define request in your toml file?"] else []) ++
    (if m.MetricsDesc = []
      then ["Error scraping: did you forget to define metricsdesc in your toml file?"] else [])
  (logs, ScrapeMetric pf db m)

/-- An ini credential store: sections keyed by name, each a key/value
list. -/
structure IniFile where
  sections : List (String × List (String × String))

/-- ini.File.GetSection: fails (none) when the section is absent. -/
def getSection (cfg : IniFile) (nm : String) : Option (List (String × String)) :=
  cfg.sections.lookup nm

/-- Section key lookup: Key(k).String() yields the empty string for an
absent key. -/
def sectionKey (sec : List (String × String)) (k : String) : String :=
  (sec.lookup k).getD ""

/-- cfg.Section(name).Key(k).String(): Section auto-creates an empty
section, so an absent section yields the empty string for every key. -/
def sectionVal (cfg : IniFile) (nm k : String) : String :=
  match getSection cfg nm with
  | some sec => sectionKey sec k
  | none => ""

/-- ini Key.MustString: the default replaces an empty value. -/
def mustString (v d : String) : String := if v = "" then d else v

/-- Model of Go strconv.ParseUint(s, 10, 64): decimal digits only, no
sign, non-empty, bounded by 2^64. -/
def goParseUint (s : String) : Option Nat :=
  if s ≠ "" ∧ s.data.all Char.isDigit then
    let n := s.data.foldl (fun n c => n * 10 + (c.toNat - 48)) 0
    if n < 2 ^ 64 then some n else none
  else none

/-- ini Key.MustUint: the default replaces an unparsable value. -/
def mustUint (v : String) (d : Nat) : Nat := (goParseUint v).getD d

/-- Model of Go strings.Split with a one-character separator: the
recursion over the character list, accumulating the current field. -/
def splitOnCharAux (sep : Char) : List Char → List Char → List (List Char)
  | [], acc => [acc.reverse]
  | c :: cs, acc =>
    if c = sep then acc.reverse :: splitOnCharAux sep cs []
    else splitOnCharAux sep cs (c :: acc)

/-- strings.Split(s, sep) for a one-character separator. -/
def splitOnChar (sep : Char) (s : String) : List String :=
  (splitOnCharAux sep s.data []).map fun l => ⟨l⟩

/-- The target-parsing prelude of formExporterDSN (main.go:481-491):
split on colons, the first component is the host, a second component
must parse as an unsigned integer port. -/
def parseTargetHostPort (target : String) : Except String (String × Nat) :=
  if target = "" then Except.ok ("", 0)
  else
    let tp := splitOnChar ':' target
    let host := tp.headD ""
    if tp.length > 1 then
      let pstr := tp.getD 1 ""
      match goParseUint pstr with
      | none => Except.error ("invalid port " ++ pstr)
      | some p => Except.ok (host, p)
    else Except.ok (host, 0)

/-- formExporterDSN (main.go:474-522): parse the target, select the
credential section from the module name, default host and port from the
default client section, require non-empty user and password, and
synthesize the DSN string. -/
def formExporterDSN (target module : String) (cfg : IniFile) : Except String String :=
  match parseTargetHostPort target with
  | Except.error e => Except.error e
  | Except.ok hp =>
    let sect := if module = "" ∨ module = "default" then "client" else "client." ++ module
    match getSection cfg sect with
    | none => Except.error ("didn't find section [" ++ sect ++ "] in config")
    | some client =>
      let host := if hp.1 = "" then mustString (sectionVal cfg "client" "host") "localhost" else hp.1
      let port := if hp.2 = 0 then mustUint (sectionVal cfg "client" "port") 3306 else hp.2
      let user := sectionKey client "user"
      let password := sectionKey client "password"
      if user = "" ∨ password = "" then
        Except.error ("no user or password specified under [" ++ sect ++ "] in config")
      else
        Except.ok ("dm://" ++ user ++ ":" ++ password ++ "@" ++ host ++ ":" ++
          toString port ++ "?autoCommit=true")

/-! Unfolding equations for the value-column loop. -/

theorem emitMetrics_nil {V : Type} (pf : String → Option V) (c f : String)
    (mt : List (String × String)) (ls lvs : List String) (row : List (String × String)) :
    emitMetrics pf c f mt ls lvs row [] = ([], none) := rfl

theorem emitMetrics_cons_skip {V : Type} {pf : String → Option V} {c f : String}
    {mt : List (String × String)} {ls lvs : List String} {row : List (String × String)}
    {m mh : String} {rest : List (String × String)}
    (h : pf (goTrimSpace (mapGet row m)) = none) :
    emitMetrics pf c f mt ls lvs row ((m, mh) :: rest) =
      emitMetrics pf c f mt ls lvs row rest := by
  simp [emitMetrics, h]

theorem emitMetrics_cons_panic {V : Type} {pf : String → Option V} {c f : String}
    {mt : List (String × String)} {ls lvs : List String} {row : List (String × String)}
    {m mh : String} {rest : List (String × String)} {v : V} {e : String}
    (hv : pf (goTrimSpace (mapGet row m)) = some v)
    (ht : GetMetricType m mt = Except.error e) :
    emitMetrics pf c f mt ls lvs row ((m, mh) :: rest) = ([], some e) := by
  simp [emitMetrics, hv, ht]

theorem emitMetrics_cons_emit {V : Type} {pf : String → Option V} {c f : String}
    {mt : List (String × String)} {ls lvs : List String} {row : List (String × String)}
    {m mh : String} {rest : List (String × String)} {v : V} {t : PromType}
    (hv : pf (goTrimSpace (mapGet row m)) = some v)
    (ht : GetMetricType m mt = Except.ok t) :
    emitMetrics pf c f mt ls lvs row ((m, mh) :: rest) =
      ((if f = "" then
          (⟨buildFQName dmdbNamespace c m, mh, ls, lvs, t, v⟩ : Sample V)
        else
          ⟨buildFQName dmdbNamespace c (cleanName (mapGet row f)), mh, [], [], t, v⟩) ::
        (emitMetrics pf c f mt ls lvs row rest).1,
       (emitMetrics pf c f mt ls lvs row rest).2) := by
  simp [emitMetrics, hv, ht]

/-! Decomposition of the value-column loop over list append. -/

theorem emitMetrics_append_some {V : Type} (pf : String → Option V) (c f : String)
    (mt : List (String × String)) (ls lvs : List String) (row : List (String × String)) :
    ∀ (l1 l2 : List (String × String)) (s1 : List (Sample V)) (e : String),
      emitMetrics pf c f mt ls lvs row l1 = (s1, some e) →
      emitMetrics pf c f mt ls lvs row (l1 ++ l2) = (s1, some e) := by
  intro l1
  induction l1 with
  | nil =>
    intro l2 s1 e h
    rw [emitMetrics_nil] at h
    simp at h
  | cons hd tl ih =>
    intro l2 s1 e h
    obtain ⟨m, mh⟩ := hd
    cases hpf : pf (goTrimSpace (mapGet row m)) with
    | none =>
      rw [emitMetrics_cons_skip hpf] at h
      rw [List.cons_append, emitMetrics_cons_skip hpf]
      exact ih l2 s1 e h
    | some v =>
      cases hty : GetMetricType m mt with
      | error e2 =>
        rw [emitMetrics_cons_panic hpf hty] at h
        rw [List.cons_append, emitMetrics_cons_panic hpf hty]
        exact h
      | ok t =>
        rw [emitMetrics_cons_emit hpf hty] at h
        rw [List.cons_append, emitMetrics_cons_emit hpf hty]
        cases htl : emitMetrics pf c f mt ls lvs row tl with
        | mk ss p =>
          rw [htl] at h
          simp only at h
          obtain ⟨h1, h2⟩ := Prod.mk.injEq .. ▸ h
          rw [ih l2 ss e (by rw [htl, h2])]
          rw [← h1]

theorem emitMetrics_append_none {V : Type} (pf : String → Option V) (c f : String)
    (mt : List (String × String)) (ls lvs : List String) (row : List (String × String)) :
    ∀ (l1 l2 : List (String × String)) (s1 : List (Sample V)),
      emitMetrics pf c f mt ls lvs row l1 = (s1, none) →
      emitMetrics pf c f mt ls lvs row (l1 ++ l2) =
        (s1 ++ (emitMetrics pf c f mt ls lvs row l2).1,
         (emitMetrics pf c f mt ls lvs row l2).2) := by
  intro l1
  induction l1 with
  | nil =>
    intro l2 s1 h
    rw [emitMetrics_nil] at h
    obtain ⟨h1, _⟩ := Prod.mk.injEq .. ▸ h
    subst h1
    simp
  | cons hd tl ih =>
    intro l2 s1 h
    obtain ⟨m, mh⟩ := hd
    cases hpf : pf (goTrimSpace (mapGet row m)) with
    | none =>
      rw [emitMetrics_cons_skip hpf] at h
      rw [List.cons_append, emitMetrics_cons_skip hpf]
      exact ih l2 s1 h
    | some v =>
      cases hty : GetMetricType m mt with
      | error e2 =>
        rw [emitMetrics_cons_panic hpf hty] at h
        simp at h
      | ok t =>
        rw [emitMetrics_cons_emit hpf hty] at h
        rw [List.cons_append, emitMetrics_cons_emit hpf hty]
        cases htl : emitMetrics pf c f mt ls lvs row tl with
        | mk ss p =>
          rw [htl] at h
          simp only at h
          obtain ⟨h1, h2⟩ := Prod.mk.injEq .. ▸ h
          rw [ih l2 ss (htl.trans (by rw [h2]))]
          rw [← h1]
          simp

/-- C1: for every normalized row processed by the translator, a value
column of metricsDesc whose text, after trimming surrounding
whitespace, parses as a float contributes exactly one emitted Sample
whose value is the parsed float, and a value column whose text fails to
parse is skipped without preventing the samples of the remaining value
columns of the same row. -/
theorem C1_per_column_sample (V : Type) (pf : String → Option V) (c f : String)
    (mt : List (String × String)) (ls lvs : List String)
    (row md1 md2 : List (String × String)) (metric mh : String)
    (out : List (Sample V))
    (h : emitMetrics pf c f mt ls lvs row (md1 ++ (metric, mh) :: md2) = (out, none)) :
    (∀ v, pf (goTrimSpace (mapGet row metric)) = some v →
       ∃ s : Sample V, s.value = v ∧
         out = (emitMetrics pf c f mt ls lvs row md1).1 ++
           s :: (emitMetrics pf c f mt ls lvs row md2).1) ∧
    (pf (goTrimSpace (mapGet row metric)) = none →
       out = (emitMetrics pf c f mt ls lvs row md1).1 ++
         (emitMetrics pf c f mt ls lvs row md2).1) := by
  cases h1 : emitMetrics pf c f mt ls lvs row md1 with
  | mk s1 p1 =>
    cases p1 with
    | some e1 =>
      rw [emitMetrics_append_some pf c f mt ls lvs row md1 ((metric, mh) :: md2) s1 e1 h1] at h
      simp at h
    | none =>
      rw [emitMetrics_append_none pf c f mt ls lvs row md1 ((metric, mh) :: md2) s1 h1] at h
      obtain ⟨ho, hp⟩ := Prod.mk.injEq .. ▸ h
      constructor
      · intro v hv
        cases hty : GetMetricType metric mt with
        | error e2 =>
          rw [emitMetrics_cons_panic hv hty] at hp
          simp at hp
        | ok t =>
          rw [emitMetrics_cons_emit hv hty] at ho
          by_cases hf : f = ""
          · rw [if_pos hf] at ho
            exact ⟨⟨buildFQName dmdbNamespace c metric, mh, ls, lvs, t, v⟩, rfl, ho.symm⟩
          · rw [if_neg hf] at ho
            exact ⟨⟨buildFQName dmdbNamespace c (cleanName (mapGet row f)), mh, [], [], t, v⟩,
              rfl, ho.symm⟩
      · intro hv
        rw [emitMetrics_cons_skip hv] at ho
        exact ho.symm

/-- Witness for C1 at a concrete row: column a parses (value 1, one
sample), column z does not parse and is skipped, column b still
contributes its sample. -/
theorem C1_per_column_sample_witness :
    (∃ s : Sample Nat, s.value = 1 ∧
       ([⟨"dmdb_c_a", "ha", [], [], PromType.gauge, 1⟩,
         ⟨"dmdb_c_b", "hb", [], [], PromType.gauge, 2⟩] : List (Sample Nat)) =
         (emitMetrics (fun s => if s = "1" then some 1 else if s = "2" then some 2 else none)
           "c" "" [] [] [] [("a", "1"), ("b", "2")] []).1 ++
           s :: (emitMetrics (fun s => if s = "1" then some 1 else if s = "2" then some 2 else none)
             "c" "" [] [] [] [("a", "1"), ("b", "2")] [("z", "hz"), ("b", "hb")]).1) ∧
    (([⟨"dmdb_c_a", "ha", [], [], PromType.gauge, 1⟩,
       ⟨"dmdb_c_b", "hb", [], [], PromType.gauge, 2⟩] : List (Sample Nat)) =
       (emitMetrics (fun s => if s = "1" then some 1 else if s = "2" then some 2 else none)
         "c" "" [] [] [] [("a", "1"), ("b", "2")] [("a", "ha")]).1 ++
       (emitMetrics (fun s => if s = "1" then some 1 else if s = "2" then some 2 else none)
         "c" "" [] [] [] [("a", "1"), ("b", "2")] [("b", "hb")]).1) := by
  constructor
  · exact (C1_per_column_sample Nat
      (fun s => if s = "1" then some 1 else if s = "2" then some 2 else none)
      "c" "" [] [] [] [("a", "1"), ("b", "2")] [] [("z", "hz"), ("b", "hb")] "a" "ha" _
      (by decide)).1 1 (by decide)
  · exact (C1_per_column_sample Nat
      (fun s => if s = "1" then some 1 else if s = "2" then some 2 else none)
      "c" "" [] [] [] [("a", "1"), ("b", "2")] [("a", "ha")] [("b", "hb")] "z" "hz" _
      (by decide)).2 (by decide)

/-- Shape of every sample produced by the value-column loop, for an
arbitrary resolved label-value list. -/
theorem emitMetrics_sample_shape {V : Type} (pf : String → Option V) (c f : String)
    (mt : List (String × String)) (ls lvs : List String) (row : List (String × String)) :
    ∀ (md : List (String × String)) (s : Sample V),
      s ∈ (emitMetrics pf c f mt ls lvs row md).1 →
      (f ≠ "" → s.labelNames = [] ∧ s.labelValues = [] ∧
        s.name = buildFQName dmdbNamespace c (cleanName (mapGet row f))) ∧
      (f = "" → s.labelNames = ls ∧ s.labelValues = lvs ∧
        ∃ m h2, (m, h2) ∈ md ∧ s.name = buildFQName dmdbNamespace c m) := by
  intro md
  induction md with
  | nil =>
    intro s hs
    rw [emitMetrics_nil] at hs
    simp at hs
  | cons hd tl ih =>
    intro s hs
    obtain ⟨m, mh⟩ := hd
    cases hpf : pf (goTrimSpace (mapGet row m)) with
    | none =>
      rw [emitMetrics_cons_skip hpf] at hs
      obtain ⟨h1, h2⟩ := ih s hs
      refine ⟨h1, fun hf => ?_⟩
      obtain ⟨ha, hb, m2, mh2, hm, hn⟩ := h2 hf
      exact ⟨ha, hb, m2, mh2, List.mem_cons_of_mem _ hm, hn⟩
    | some v =>
      cases hty : GetMetricType m mt with
      | error e2 =>
        rw [emitMetrics_cons_panic hpf hty] at hs
        simp at hs
      | ok t =>
        rw [emitMetrics_cons_emit hpf hty] at hs
        rcases List.mem_cons.mp hs with hh | hmem
        · by_cases hf : f = ""
          · rw [if_pos hf] at hh
            subst hh
            constructor
            · intro hne; exact absurd hf hne
            · intro _
              exact ⟨rfl, rfl, m, mh, List.mem_cons_self _ _, rfl⟩
          · rw [if_neg hf] at hh
            subst hh
            constructor
            · intro _; exact ⟨rfl, rfl, rfl⟩
            · intro h0; exact absurd h0 hf
        · obtain ⟨h1, h2⟩ := ih s hmem
          refine ⟨h1, fun hf => ?_⟩
          obtain ⟨ha, hb, m2, mh2, hm, hn⟩ := h2 hf
          exact ⟨ha, hb, m2, mh2, List.mem_cons_of_mem _ hm, hn⟩

/-- C5: the two naming strategies are mutually exclusive per
definition. With fieldToAppend (nameField) set, every emitted Sample
has an empty label set and its fully-qualified name is the namespace,
the context and the sanitised row value of the name field; with
fieldToAppend unset, every emitted Sample is named from the namespace,
the context and its value column and carries the full resolved label
set. -/
theorem C5_naming_strategies (V : Type) (pf : String → Option V) (c f : String)
    (mt : List (String × String)) (ls : List String)
    (row md : List (String × String)) (s : Sample V)
    (hs : s ∈ (emitMetrics pf c f mt ls (ls.map fun l => mapGet row l) row md).1) :
    (f ≠ "" → s.labelNames = [] ∧ s.labelValues = [] ∧
      s.name = buildFQName dmdbNamespace c (cleanName (mapGet row f))) ∧
    (f = "" → s.labelNames = ls ∧ s.labelValues = (ls.map fun l => mapGet row l) ∧
      ∃ m h2, (m, h2) ∈ md ∧ s.name = buildFQName dmdbNamespace c m) :=
  emitMetrics_sample_shape pf c f mt ls (ls.map fun l => mapGet row l) row md s hs

/-- Witness for C5: with nameField set to column n holding the value
Queue Size, the emitted sample has no labels and is named from the
sanitised field value. -/
theorem C5_naming_strategies_witness :
    (⟨"dmdb_c_queue_size", "ha", [], [], PromType.gauge, 1⟩ : Sample Nat).labelNames = [] ∧
    (⟨"dmdb_c_queue_size", "ha", [], [], PromType.gauge, 1⟩ : Sample Nat).labelValues = [] ∧
    (⟨"dmdb_c_queue_size", "ha", [], [], PromType.gauge, 1⟩ : Sample Nat).name =
      buildFQName dmdbNamespace "c" (cleanName (mapGet [("n", "Queue Size"), ("a", "1")] "n")) :=
  (C5_naming_strategies Nat (fun s => if s = "1" then some 1 else none) "c" "n" [] ["a"]
    [("n", "Queue Size"), ("a", "1")] [("a", "ha")]
    ⟨"dmdb_c_queue_size", "ha", [], [], PromType.gauge, 1⟩ (by decide)).1 (by decide)

/-- Accumulating a mapped head onto a list by a left fold reverses the
mapped list. -/
theorem foldl_cons_rev {α β : Type} (g : α → β) :
    ∀ (l : List α) (acc : List β),
      l.foldl (fun m x => g x :: m) acc = (l.map g).reverse ++ acc := by
  intro l
  induction l with
  | nil => intro acc; simp
  | cons x xs ih =>
    intro acc
    simp only [List.foldl, List.map, List.reverse_cons, List.append_assoc]
    rw [ih (g x :: acc)]
    simp

/-- C3 counterexample: the Row Normalizer maps a null column value to
the string <nil> (the Go rendering of a nil interface value), not to
the empty string as claimed; the column-name key is lower-cased. -/
theorem C3_null_value_counterexample :
    mapGet (buildRow ["A"] [GoValue.VNull]) "a" = "<nil>" ∧ ("<nil>" : String) ≠ "" := by
  decide

/-- C3 amended: for every driver row, the Row Normalizer produces the
mapping whose keys are the lower-cased column names and whose values
are the textual representation of each native value, with a null
column value mapped to the string <nil> (not the empty string). -/
theorem C3_row_normalizer_amended (cols : List String) (vals : List GoValue) :
    buildRow cols vals =
      ((cols.zip vals).map fun cv => (goToLower cv.1, goSprintf cv.2)).reverse ∧
    goSprintf GoValue.VNull = "<nil>" := by
  constructor
  · rw [buildRow, foldl_cons_rev (fun cv => (goToLower cv.1, goSprintf cv.2)) (cols.zip vals) []]
    simp
  · rfl

/-- C4: for every metric definition, when the query and row pipeline
succeeds but zero samples were emitted across the whole scrape
(metricsCount stayed 0), the scrape with ignoreZeroResult false
returns the "no metrics found" zero-result error, and the scrape of
the same definition with ignoreZeroResult true returns no error. -/
theorem C4_zero_result_policy (V : Type) (pf : String → Option V)
    (db : String → QueryOutcome) (c : String) (ls : List String)
    (md mt : List (String × String)) (f req : String)
    (h : GeneratePrometheusMetrics (db req)
      (genericParserStep pf c f mt ls md) ([], 0) = (([], 0), none)) :
    ScrapeGenericValues pf db c ls md mt f false req = ([], some ScrapeErr.noMetrics) ∧
    ScrapeGenericValues pf db c ls md mt f true req = ([], none) := by
  constructor
  · rw [ScrapeGenericValues, h]
    rfl
  · rw [ScrapeGenericValues, h]
    rfl

/-- Witness for C4 on a query returning zero rows. -/
theorem C4_zero_result_policy_witness :
    ScrapeGenericValues (fun s => if s = "1" then some (1 : Nat) else none)
      (fun _ => ⟨false, Except.ok ⟨["a"], [], none⟩⟩) "c" [] [("a", "ha")] [] "" false "q" =
      ([], some ScrapeErr.noMetrics) ∧
    ScrapeGenericValues (fun s => if s = "1" then some (1 : Nat) else none)
      (fun _ => ⟨false, Except.ok ⟨["a"], [], none⟩⟩) "c" [] [("a", "ha")] [] "" true "q" =
      ([], none) :=
  C4_zero_result_policy Nat (fun s => if s = "1" then some 1 else none)
    (fun _ => ⟨false, Except.ok ⟨["a"], [], none⟩⟩) "c" [] [("a", "ha")] [] "" "q" (by decide)

/-- The row loop never produces the timeout error value. -/
theorem scanLoop_no_timeout {σ : Type}
    (parse : σ → List (String × String) → σ × Option String) (cols : List String) :
    ∀ (rws : List (Except String (List GoValue))) (s : σ),
      (scanLoop parse cols s rws).2 ≠ some ScrapeErr.timedOut := by
  intro rws
  induction rws with
  | nil => intro s; simp [scanLoop]
  | cons hd tl ih =>
    intro s
    cases hd with
    | error e => simp [scanLoop]
    | ok vals =>
      rw [scanLoop]
      cases hp : (parse s (buildRow cols vals)).2 with
      | some e => simp [hp]
      | none =>
        simp only [hp]
        exact ih _

/-- C6: when the configured deadline has expired during query
execution, the Generic Value Scraper returns the distinct
"DM query timed out" error value, and that value is returned on no
other path (so it is distinguishable from every generic query-failure
error, which only arises when the deadline has not expired). -/
theorem C6_timeout_error_distinct :
    (∀ (σ : Type) (qo : QueryOutcome)
       (parse : σ → List (String × String) → σ × Option String) (init : σ),
       qo.deadlineExceeded = true →
       (GeneratePrometheusMetrics qo parse init).2 = some ScrapeErr.timedOut) ∧
    (∀ (σ : Type) (qo : QueryOutcome)
       (parse : σ → List (String × String) → σ × Option String) (init : σ),
       qo.deadlineExceeded = false →
       (GeneratePrometheusMetrics qo parse init).2 ≠ some ScrapeErr.timedOut) ∧
    ScrapeErr.message ScrapeErr.timedOut = "DM query timed out" := by
  refine ⟨?_, ?_, rfl⟩
  · intro σ qo parse init hd
    rw [GeneratePrometheusMetrics, hd]
    rfl
  · intro σ qo parse init hd
    rw [GeneratePrometheusMetrics, hd]
    cases hq : qo.result with
    | error e => simp
    | ok rws => simpa using scanLoop_no_timeout parse rws.cols rws.rows init

/-- Witness for C6: an expired deadline yields the timeout error even
though the driver reported its own error; with the deadline not
expired the same driver failure is not reported as a timeout. -/
theorem C6_timeout_error_distinct_witness :
    (GeneratePrometheusMetrics ⟨true, Except.error "broken query"⟩
       (fun (s : Nat) _ => (s, none)) 0).2 = some ScrapeErr.timedOut ∧
    (GeneratePrometheusMetrics ⟨false, Except.error "broken query"⟩
       (fun (s : Nat) _ => (s, none)) 0).2 ≠ some ScrapeErr.timedOut :=
  ⟨C6_timeout_error_distinct.1 Nat ⟨true, Except.error "broken query"⟩
      (fun s _ => (s, none)) 0 rfl,
   C6_timeout_error_distinct.2.1 Nat ⟨false, Except.error "broken query"⟩
      (fun s _ => (s, none)) 0 rfl⟩

/-- C8: kind resolution maps the tokens gauge and counter
case-insensitively to the two value kinds, a column absent from the
kind mapping resolves to Gauge, and a column mapped to an unrecognized
non-empty token reaches the fatal failure branch with its descriptive
message, never a silent downgrade to Gauge. -/
theorem C8_kind_resolution :
    (∀ (col : String) (m : List (String × String)),
       m.lookup (goToLower col) = none →
       GetMetricType col m = Except.ok PromType.gauge) ∧
    (∀ (col : String) (m : List (String × String)) (s : String),
       m.lookup (goToLower col) = some s → goToLower s = "gauge" →
       GetMetricType col m = Except.ok PromType.gauge) ∧
    (∀ (col : String) (m : List (String × String)) (s : String),
       m.lookup (goToLower col) = some s → goToLower s = "counter" →
       GetMetricType col m = Except.ok PromType.counter) ∧
    (∀ (col : String) (m : List (String × String)) (s : String),
       m.lookup (goToLower col) = some s → s ≠ "" →
       goToLower s ≠ "gauge" → goToLower s ≠ "counter" →
       GetMetricType col m =
         Except.error ("Error while getting prometheus type " ++ goToLower s)) := by
  refine ⟨?_, ?_, ?_, ?_⟩
  · intro col m hl
    rw [GetMetricType, hl]
  · intro col m s hl hg
    simp [GetMetricType, hl, hg, strToPromType, List.lookup]
  · intro col m s hl hg
    simp [GetMetricType, hl, hg, strToPromType, List.lookup]
  · intro col m s hl _ hg hc
    have hg2 : (goToLower s == "gauge") = false := by simpa using hg
    have hc2 : (goToLower s == "counter") = false := by simpa using hc
    simp [GetMetricType, hl, strToPromType, List.lookup, hg2, hc2]

/-- Witness for C8 at concrete tokens: absent column, the token
Counter (case-insensitive), and the unrecognized token weird. -/
theorem C8_kind_resolution_witness :
    GetMetricType "x" [] = Except.ok PromType.gauge ∧
    GetMetricType "a" [("a", "Counter")] = Except.ok PromType.counter ∧
    GetMetricType "a" [("a", "weird")] =
      Except.error ("Error while getting prometheus type " ++ goToLower "weird") :=
  ⟨C8_kind_resolution.1 "x" [] (by decide),
   C8_kind_resolution.2.2.1 "a" [("a", "Counter")] "Counter" (by decide) (by decide),
   C8_kind_resolution.2.2.2 "a" [("a", "weird")] "weird" (by decide) (by decide)
     (by decide) (by decide)⟩

/-- C10: when the query starts successfully and every per-row scan and
row-handler call succeeds, GeneratePrometheusMetrics returns no error
even though the driver-side iteration error (the reason rows.Next
reported no further rows) is set: the iteration error is never
inspected, so a partially delivered result set is reported to the
caller as success. -/
theorem C10_iteration_error_ignored (σ : Type)
    (parse : σ → List (String × String) → σ × Option String) (init fin : σ)
    (cols : List String) (rws : List (List GoValue)) (e : String)
    (h : scanLoop parse cols init (rws.map Except.ok) = (fin, none)) :
    GeneratePrometheusMetrics ⟨false, Except.ok ⟨cols, rws.map Except.ok, some e⟩⟩
      parse init = (fin, none) := by
  rw [GeneratePrometheusMetrics]
  simpa using h

/-- Witness for C10: one delivered row, a handler that accepts it, and
a pending driver error; the call still reports success. -/
theorem C10_iteration_error_ignored_witness :
    GeneratePrometheusMetrics
      ⟨false, Except.ok ⟨["a"], [[GoValue.VInt 1]].map Except.ok, some "connection lost"⟩⟩
      (fun (s : Nat) _ => (s + 1, none)) 0 = (1, none) :=
  C10_iteration_error_ignored Nat (fun s _ => (s + 1, none)) 0 1 ["a"]
    [[GoValue.VInt 1]] "connection lost" (by decide)

/-- C2 counterexample: a definition with an empty query and an empty
value-column mapping is not rejected. The scrape body only logs the
two complaints and proceeds; with ignoreZeroResult true and a
succeeding query the result is zero samples and no error at all,
exactly the silent zero-sample outcome the claim rules out. -/
theorem C2_empty_definition_counterexample :
    scrapeOneMetric (fun _ => (none : Option Nat))
      (fun _ => ⟨false, Except.ok ⟨["a"], [Except.ok [GoValue.VInt 1]], none⟩⟩)
      ⟨"ctx", [], [], [], "", "", true⟩ =
    (["Error scraping: did you forget to define request in your toml file?",
      "Error scraping: did you forget to define metricsdesc in your toml file?"],
     ([], none)) := by decide

/-- With an empty value-column mapping the row handler leaves the
state untouched on every delivered row. -/
theorem scanLoop_empty_metricsDesc {V : Type} (pf : String → Option V) (c f : String)
    (mt : List (String × String)) (ls : List String) (cols : List String) :
    ∀ (rws : List (List GoValue)),
      scanLoop (genericParserStep pf c f mt ls []) cols ([], 0) (rws.map Except.ok) =
        (([], 0), none) := by
  intro rws
  induction rws with
  | nil => rfl
  | cons r rest ih => exact ih

/-- C2 amended: a definition with an empty query or an empty
value-column mapping is logged with a descriptive complaint but is not
rejected; scraping proceeds, emits no samples when MetricsDesc is
empty, and returns an error only through the zero-result policy (no
error at all when ignoreZeroRows is set). -/
theorem C2_empty_definition_logged_not_rejected (V : Type) (pf : String → Option V)
    (db : String → QueryOutcome) (m : Metric) (cols : List String)
    (rws : List (List GoValue)) (ie : Option String)
    (hmd : m.MetricsDesc = [])
    (hdb : db m.Request = ⟨false, Except.ok ⟨cols, rws.map Except.ok, ie⟩⟩) :
    "Error scraping: did you forget to define metricsdesc in your toml file?" ∈
      (scrapeOneMetric pf db m).1 ∧
    (scrapeOneMetric pf db m).2 =
      ([], cond m.IgnoreZeroResult none (some ScrapeErr.noMetrics)) := by
  have hg := scanLoop_empty_metricsDesc pf m.Context m.FieldToAppend m.MetricsType m.Labels
    cols rws
  constructor
  · simp [scrapeOneMetric, hmd]
  · cases hz : m.IgnoreZeroResult <;>
      simp [scrapeOneMetric, ScrapeMetric, ScrapeGenericValues, hmd, hdb,
        GeneratePrometheusMetrics, hg, hz]

/-- Witness for C2 amended: an empty MetricsDesc with ignoreZeroResult
false is logged and ends in the zero-result error, not a rejection of
the definition. -/
theorem C2_empty_definition_logged_not_rejected_witness :
    "Error scraping: did you forget to define metricsdesc in your toml file?" ∈
      (scrapeOneMetric (fun _ => (none : Option Nat))
        (fun _ => ⟨false, Except.ok ⟨[], [], none⟩⟩)
        ⟨"c", [], [], [], "", "q", false⟩).1 ∧
    (scrapeOneMetric (fun _ => (none : Option Nat))
        (fun _ => ⟨false, Except.ok ⟨[], [], none⟩⟩)
        ⟨"c", [], [], [], "", "q", false⟩).2 =
      ([], some ScrapeErr.noMetrics) :=
  C2_empty_definition_logged_not_rejected Nat (fun _ => none)
    (fun _ => ⟨false, Except.ok ⟨[], [], none⟩⟩)
    ⟨"c", [], [], [], "", "q", false⟩ [] [] none rfl rfl

/-- C7 counterexample, on the credential store of the specification's
own example (a default section holding only host x and port 1). First,
resolving target db1:5236 with the empty module on that store does not
yield a connection target at all: it fails on the missing credentials.
Second, a target whose port text does not parse, combined with an
unknown module, fails with the invalid-port error, not with the
section-not-found error the claim requires for any target. -/
theorem C7_target_resolution_counterexample :
    formExporterDSN "db1:5236" "" ⟨[("client", [("host", "x"), ("port", "1")])]⟩ =
      Except.error "no user or password specified under [client] in config" ∧
    formExporterDSN "h:x" "missingmod" ⟨[("client", [("host", "x"), ("port", "1")])]⟩ =
      Except.error "invalid port x" ∧
    "invalid port x" ≠ "didn't find section [client.missingmod] in config" :=
  ⟨rfl, rfl, by decide⟩

/-- C7 amended: target resolution on the three canonical inputs, with
the provisos the code imposes. On a store whose default client section
carries non-empty credentials, target db1:5236 with empty module
resolves to host db1 and port 5236; an empty target with empty module
resolves to the default section's host and port; and a module with no
matching client section fails with the section-not-found error for
every target that itself parses (a target with an unparsable port
fails earlier with the invalid-port error). -/
theorem C7_target_resolution_amended :
    (∀ (cfg : IniFile) (sec : List (String × String)),
       getSection cfg "client" = some sec →
       sectionKey sec "user" ≠ "" → sectionKey sec "password" ≠ "" →
       formExporterDSN "db1:5236" "" cfg =
         Except.ok ("dm://" ++ sectionKey sec "user" ++ ":" ++ sectionKey sec "password" ++
           "@" ++ "db1" ++ ":" ++ toString (5236 : Nat) ++ "?autoCommit=true")) ∧
    (∀ (cfg : IniFile) (sec : List (String × String)) (prt : Nat),
       getSection cfg "client" = some sec →
       sectionVal cfg "client" "host" ≠ "" →
       goParseUint (sectionVal cfg "client" "port") = some prt →
       sectionKey sec "user" ≠ "" → sectionKey sec "password" ≠ "" →
       formExporterDSN "" "" cfg =
         Except.ok ("dm://" ++ sectionKey sec "user" ++ ":" ++ sectionKey sec "password" ++
           "@" ++ sectionVal cfg "client" "host" ++ ":" ++ toString prt ++
           "?autoCommit=true")) ∧
    (∀ (target module : String) (cfg : IniFile) (hp : String × Nat),
       module ≠ "" → module ≠ "default" →
       parseTargetHostPort target = Except.ok hp →
       getSection cfg ("client." ++ module) = none →
       formExporterDSN target module cfg =
         Except.error ("didn't find section [" ++ ("client." ++ module) ++ "] in config")) := by
  refine ⟨?_, ?_, ?_⟩
  · intro cfg sec hsec hu hp2
    have h1 : parseTargetHostPort "db1:5236" = Except.ok ("db1", 5236) := rfl
    simp [formExporterDSN, h1, hsec, hu, hp2]
  · intro cfg sec prt hsec hh hpt hu hp2
    have h1 : parseTargetHostPort "" = Except.ok ("", 0) := rfl
    simp [formExporterDSN, h1, hsec, hu, hp2, mustString, mustUint, hh, hpt]
  · intro target module cfg hp hm1 hm2 hpt hsec
    simp [formExporterDSN, hpt, hm1, hm2, hsec]

/-- Witness for C7 amended on a concrete store with credentials: the
explicit target wins, the empty target falls back to the section's
host x and port 7, and an unknown module is a section-not-found
error. -/
theorem C7_target_resolution_amended_witness :
    formExporterDSN "db1:5236" ""
      ⟨[("client", [("host", "x"), ("port", "7"), ("user", "u"), ("password", "p")])]⟩ =
      Except.ok "dm://u:p@db1:5236?autoCommit=true" ∧
    formExporterDSN "" ""
      ⟨[("client", [("host", "x"), ("port", "7"), ("user", "u"), ("password", "p")])]⟩ =
      Except.ok "dm://u:p@x:7?autoCommit=true" ∧
    formExporterDSN "h" "missingmod"
      ⟨[("client", [("host", "x"), ("port", "7"), ("user", "u"), ("password", "p")])]⟩ =
      Except.error "didn't find section [client.missingmod] in config" :=
  ⟨C7_target_resolution_amended.1 _
      [("host", "x"), ("port", "7"), ("user", "u"), ("password", "p")]
      rfl (by decide) (by decide),
   C7_target_resolution_amended.2.1 _
      [("host", "x"), ("port", "7"), ("user", "u"), ("password", "p")] 7
      rfl (by decide) rfl (by decide) (by decide),
   C7_target_resolution_amended.2.2 "h" "missingmod" _ ("h", 0)
      (by decide) (by decide) rfl rfl⟩
